import Mathlib

/-!
Verification of the Package Provenance Verification Pipeline of the
cli-package-manager-unifier repository.

The embedding models, from `src/utils/virustotal.py` and the method
`UnifiedCLI._virustotal_scan` of `src/cli.py`:

* the result dictionary returned by `scan_file_hash_with_virustotal`
  (HTTP 200 returns the parsed JSON body; any other status returns the
  error dictionary `{"error": status_code, "message": text}`),
* the verdict classification performed by the branch structure of
  `UnifiedCLI._virustotal_scan` over that dictionary,
* the artifact resolver `download_package_and_get_hash` with its pip and
  npm fallback chains, over an oracle environment describing the outcomes
  of the external calls (subprocess invocations, HTTP requests), together
  with an event trace recording scratch-directory and network effects,
* the full scan `_virustotal_scan`, including its prompts and its
  top-level exception handler.

Effectful external calls are modelled by oracle fields giving the outcome
the call would produce; a call that raises a Python exception is an
`Except.error`.  Python truthiness of the values the code tests is
modelled explicitly (`0`, `""`, `None` and an absent key are falsy).
-/

deriving instance DecidableEq for Except

/-- The `last_analysis_stats` object as `_virustotal_scan` reads it
(cli.py lines 152-155): each counter may be absent, in which case the
code substitutes `0` (`int(stats.get('malicious', 0))` and the
`'undetected' in stats` / `'suspicious' in stats` / `'harmless' in stats`
conditionals, all of which default to `0`). -/
structure LastAnalysisStats where
  malicious : Option Int
  suspicious : Option Int
  harmless : Option Int
  undetected : Option Int
deriving Repr, DecidableEq

/-- The truthy `data` dictionary of a reputation response, reduced to the
only field the CLI reads: `data.get('attributes', {}) or {}` followed by
`.get('last_analysis_stats', {}) or {}` (cli.py lines 150-151).  `none`
covers every case in which the attributes or stats object is absent or
falsy. -/
structure VTData where
  lastAnalysisStats : Option LastAnalysisStats
deriving Repr, DecidableEq

/-- The stats object the CLI ends up reading counters from: the empty
dictionary when the chain `data -> attributes -> last_analysis_stats`
breaks anywhere. -/
def statsOf (d : VTData) : LastAnalysisStats :=
  d.lastAnalysisStats.getD ⟨none, none, none, none⟩

/-- A Python dictionary as consumed by `_virustotal_scan`, restricted to
the keys the code reads.  `data = some d` models `result.get('data')`
being a truthy dict (cli.py line 149); an absent, falsy or non-dict value
is `none`.  `error` models the integer stored under `'error'` by
`scan_file_hash_with_virustotal`; Python truthiness makes `some 0`
behave like an absent key at cli.py line 182. -/
structure ResultDict where
  data : Option VTData
  error : Option Nat
  message : Option String
deriving Repr, DecidableEq

/-- `result.get('error')` used as a condition (cli.py line 182):
truthy exactly when the key is present with a non-zero value. -/
def errorTruthy (r : ResultDict) : Bool :=
  match r.error with
  | some c => c ≠ 0
  | none => false

/-- An HTTP response as produced by `requests.get` in
`scan_file_hash_with_virustotal`.  `jsonBody` is the parsed JSON body
(`resp.json()`), reduced to the keys the CLI reads; `text` is
`resp.text`.  The Python HTTP client guarantees `100 ≤ statusCode ≤ 999`
for every completed response (`http.client` raises `BadStatusLine`
otherwise), which the theorems record as a hypothesis where it matters. -/
structure HttpResponse where
  statusCode : Nat
  jsonBody : ResultDict
  text : String
deriving Repr, DecidableEq

/-- `scan_file_hash_with_virustotal` (virustotal.py lines 28-36): a 200
response returns `resp.json()`; any other status returns
`{"error": resp.status_code, "message": resp.text}`. -/
def scan_file_hash_with_virustotal (resp : HttpResponse) : ResultDict :=
  if resp.statusCode = 200 then resp.jsonBody
  else { data := none, error := some resp.statusCode, message := some resp.text }

/-- `get_virustotal_api_key` (virustotal.py lines 18-25): the environment
value when present, else the hardcoded default key. -/
def get_virustotal_api_key (envKey : Option String) : String :=
  match envKey with
  | some k => if k = "" then "020700591df72dd76c943a1306d9de7a984cf4afbd5b3f868c723cf64f2413db" else k
  | none => "020700591df72dd76c943a1306d9de7a984cf4afbd5b3f868c723cf64f2413db"

/-- The verdicts of the spec's Verdict Engine, with the reasons the code
attaches: the malicious count for a block, the suspicious count for a
warning, the error code and message for an indeterminate result. -/
inductive Verdict where
  | allow
  | allowWithWarning (suspiciousCount : Int)
  | block (maliciousCount : Int)
  | indeterminate (code : Nat) (message : Option String)
deriving Repr, DecidableEq

/-- The verdict classification performed by the branch structure of
`_virustotal_scan` (cli.py lines 149-193) on the result dictionary:
a truthy `data` dict leads to the stats branches (`malicious > 0` checked
first at line 165, then `suspicious > 0` at line 169, else clean); with
no truthy `data`, a truthy `error` leads to the service-error branch
(line 182), and otherwise to the no-data branch (line 192), which the
code treats as clean. -/
def verdictOf (r : ResultDict) : Verdict :=
  match r.data with
  | some d =>
      let s := statsOf d
      if 0 < s.malicious.getD 0 then Verdict.block (s.malicious.getD 0)
      else if 0 < s.suspicious.getD 0 then Verdict.allowWithWarning (s.suspicious.getD 0)
      else Verdict.allow
  | none =>
      match r.error with
      | some c => if c ≠ 0 then Verdict.indeterminate c r.message else Verdict.allow
      | none => Verdict.allow

example :
    verdictOf { data := some ⟨some ⟨some 1, some 5, some 0, some 0⟩⟩,
                error := none, message := none } = Verdict.block 1 := by decide

example :
    verdictOf (scan_file_hash_with_virustotal ⟨404, ⟨none, none, none⟩, "nf"⟩) =
      Verdict.indeterminate 404 (some "nf") := by decide

/-- The side effects of `download_package_and_get_hash` that the
verification tracks: the scratch-directory lifecycle
(`tempfile.mkdtemp` at virustotal.py line 166, `shutil.rmtree` in the
`finally` block at line 200), the pip subprocess invocations, the HTTP
query of the registry's latest-version endpoint performed by
`_get_npm_latest_tarball_from_registry`, the tarball download, and the
`npm pack` fallback. -/
inductive Event where
  | mkdtemp
  | rmtree
  | pipRun
  | queryRegistryLatest
  | downloadTarball (url : String)
  | npmPack
deriving Repr, DecidableEq

/-- Outcome of a `subprocess.run` call: either it returns a completed
process with the given return code, or the call itself raises (for
example `FileNotFoundError` when the executable is missing). -/
inductive RunOutcome where
  | ret (returncode : Int)
  | raised (msg : String)
deriving Repr, DecidableEq

/-- Oracle environment for `_download_pip_artifact` (virustotal.py lines
60-73): the outcomes of the two `subprocess.run` invocations
(`pip3 download --no-deps ...` and `python -m pip download ...`), the
regular files found in the scratch directory afterwards in `os.listdir`
order, and `calculate_file_hash` abstracted as an oracle from file name
to digest. -/
structure PipEnv where
  run1 : RunOutcome
  run2 : RunOutcome
  files : List String
  hashOf : String → String

/-- `_download_pip_artifact` (virustotal.py lines 60-73).  There is no
exception handler in its body, so a raising `subprocess.run` propagates
(`Except.error`).  A non-zero return code from both invocations yields
`None`; otherwise the hash of the first regular file in the scratch
directory, or `None` when the directory holds no file. -/
def download_pip_artifact (env : PipEnv) : Except String (Option String) × List Event :=
  match env.run1 with
  | RunOutcome.raised m => (Except.error m, [Event.pipRun])
  | RunOutcome.ret rc1 =>
      if rc1 ≠ 0 then
        match env.run2 with
        | RunOutcome.raised m => (Except.error m, [Event.pipRun, Event.pipRun])
        | RunOutcome.ret rc2 =>
            if rc2 ≠ 0 then (Except.ok none, [Event.pipRun, Event.pipRun])
            else (Except.ok (env.files.head?.map env.hashOf), [Event.pipRun, Event.pipRun])
      else (Except.ok (env.files.head?.map env.hashOf), [Event.pipRun])

/-- The `dist` dictionary of an npm metadata response, reduced to the
`tarball` field; `some t` models the key being present with a string
value `t` (virustotal.py lines 177-181). -/
structure DistDict where
  tarball : Option String
deriving Repr, DecidableEq

/-- An npm `view --json` metadata dictionary, reduced to the fields
`download_package_and_get_hash` reads: `dist` when present as a dict,
and `version` when present as a string (virustotal.py lines 176, 187). -/
structure NpmMeta where
  dist : Option DistDict
  version : Option String
deriving Repr, DecidableEq

/-- Python truthiness of an optional string: falsy when `None` or empty. -/
def optStrTruthy : Option String → Bool
  | some s => s ≠ ""
  | none => false

/-- Oracle environment for the npm branch of
`download_package_and_get_hash`: the registry URL returned by
`_get_npm_registry`, the metadata returned by `_get_npm_metadata`
(`none` when the command failed — that helper swallows its exceptions),
the result of `_get_npm_latest_tarball_from_registry` (which also
swallows its exceptions, returning `None`), `_download_npm_tarball` as
an oracle from URL to optional digest (it returns `None` on any error),
and the result of `_npm_pack_fallback`. -/
structure NpmEnv where
  registry : String
  meta : Option NpmMeta
  registryLatest : Option String
  tarballDownload : String → Option String
  packResult : Option String

/-- Python's `s.split('/', 1)`: the part before the first `'/'` and the
rest, or `none` when the string holds no `'/'` (in which case the
two-name unpacking in the source raises `ValueError`). -/
def splitFirstSlash (s : String) : Option (String × String) :=
  match s.splitOn "/" with
  | [] => none
  | [_] => none
  | x :: rest => some (x, String.intercalate "/" rest)

/-- `_construct_npm_tarball_url` (virustotal.py lines 120-128).  For a
scoped name `@scope/name` the URL is registry, then scope, a slash, the
bare name, the npm tarball separator segment, and finally
`name-version.tgz`; a name starting with `@` but holding no slash makes
the source's `split('/', 1)` unpacking raise `ValueError`. -/
def construct_npm_tarball_url (packageName version registry : String) :
    Except String String :=
  if packageName.startsWith "@" then
    match splitFirstSlash packageName with
    | some (scope0, name) =>
        Except.ok (registry ++ scope0.drop 1 ++ "/" ++ name ++ "/-/" ++ name ++ "-" ++ version ++ ".tgz")
    | none => Except.error "ValueError"
  else
    Except.ok (registry ++ packageName ++ "/-/" ++ packageName ++ "-" ++ version ++ ".tgz")

/-- Fallback step 1 of the npm branch (virustotal.py lines 174-181):
the direct `dist.tarball` URL embedded in the `npm view` metadata, when
`meta` is a dict, `meta['dist']` is a dict, and its `tarball` value is a
non-empty string. -/
def metaTarball (meta : Option NpmMeta) : Option String :=
  match meta with
  | some m =>
      match m.dist with
      | some dd =>
          match dd.tarball with
          | some t => if t ≠ "" then some t else none
          | none => none
      | none => none
  | none => none

/-- Fallback step 3 of the npm branch (virustotal.py lines 186-189):
when no URL was obtained yet and the metadata carries a non-empty
version string, construct the tarball URL; the construction itself may
raise for a malformed scoped name. -/
def npmStep3 (name : String) (env : NpmEnv) (u2 : Option String) :
    Except String (Option String) :=
  if optStrTruthy u2 then Except.ok u2
  else
    match env.meta with
    | none => Except.ok u2
    | some m =>
        match m.version with
        | none => Except.ok u2
        | some v =>
            if v = "" then Except.ok u2
            else (construct_npm_tarball_url name v env.registry).map fun u => some u

/-- The URL available after fallback step 2 (virustotal.py lines
183-184): the step-1 URL when truthy, otherwise whatever the registry's
latest-version endpoint returned. -/
def npmStep2Url (env : NpmEnv) : Option String :=
  if optStrTruthy (metaTarball env.meta) then metaTarball env.meta
  else env.registryLatest

/-- The network effect of fallback step 2: the latest-version endpoint
is queried exactly when step 1 produced no truthy URL (the
`if not tarball_url:` guard at virustotal.py line 183). -/
def npmStep2Events (env : NpmEnv) : List Event :=
  if optStrTruthy (metaTarball env.meta) then []
  else [Event.queryRegistryLatest]

/-- Fallback steps 4 and 5 (virustotal.py lines 191-196): a truthy URL
is stream-downloaded; a falsy download result — and the no-URL case —
fall back to `npm pack`. -/
def npmStep45 (env : NpmEnv) (u3 : Option String) :
    Except String (Option String) × List Event :=
  if optStrTruthy u3 then
    match env.tarballDownload (u3.getD "") with
    | some h => (Except.ok (some h), [Event.downloadTarball (u3.getD "")])
    | none => (Except.ok env.packResult, [Event.downloadTarball (u3.getD ""), Event.npmPack])
  else (Except.ok env.packResult, [Event.npmPack])

/-- The npm branch of `download_package_and_get_hash` (virustotal.py
lines 170-196): step 1 takes the direct `dist.tarball` from the
metadata; only when that produced no truthy URL is the registry's
latest-version endpoint queried (step 2, recorded as
`Event.queryRegistryLatest`); step 3 constructs the URL from the
metadata version (and may raise); a truthy URL is then downloaded
(step 4), and if the download produced no digest — or no URL was ever
obtained — the `npm pack` fallback runs (step 5). -/
def npmResolve (name : String) (env : NpmEnv) :
    Except String (Option String) × List Event :=
  match npmStep3 name env (npmStep2Url env) with
  | Except.error e => (Except.error e, npmStep2Events env)
  | Except.ok u3 =>
      ((npmStep45 env u3).1, npmStep2Events env ++ (npmStep45 env u3).2)

/-- Oracle environment for a whole resolver call. -/
structure ResolveEnv where
  pip : PipEnv
  npm : NpmEnv

/-- The body of the `try` block of `download_package_and_get_hash`
(virustotal.py lines 167-197): the manager-specific branch, with
`return None` for an unknown manager. -/
def resolveBody (name manager : String) (env : ResolveEnv) :
    Except String (Option String) × List Event :=
  if manager = "pip3" then download_pip_artifact env.pip
  else if manager = "npm" then npmResolve name env.npm
  else (Except.ok none, [])

/-- `download_package_and_get_hash` (virustotal.py lines 164-202): a
scratch directory is created with `tempfile.mkdtemp` before the `try`,
and the `finally` block removes it with `shutil.rmtree` on every exit,
the raising ones included. -/
def download_package_and_get_hash (name manager : String) (env : ResolveEnv) :
    Except String (Option String) × List Event :=
  ((resolveBody name manager env).1,
    Event.mkdtemp :: (resolveBody name manager env).2 ++ [Event.rmtree])

/-- Python truthiness of the `file_hash` value tested by
`if not file_hash:` at cli.py line 133: falsy when `None` or empty. -/
def pyFalsy : Option String → Bool
  | none => true
  | some s => s = ""

/-- The whitespace characters Python's `str.strip()` removes, restricted
to ASCII: space, tab, newline, carriage return, vertical tab, form
feed. -/
def isPySpace (c : Char) : Bool :=
  c == ' ' || c == '\t' || c == '\n' || c == '\r' || c == '\x0b' || c == '\x0c'

/-- ASCII lowercasing of one character, as Python's `str.lower()` does
on the responses compared against `'y'`. -/
def pyLowerChar (c : Char) : Char :=
  if 65 ≤ c.toNat ∧ c.toNat ≤ 90 then Char.ofNat (c.toNat + 32) else c

/-- `choice.strip().lower()` as applied to every operator response in
`_virustotal_scan` (cli.py lines 135, 171, 184): strip leading and
trailing whitespace, then lowercase. -/
def normalizeChoice (s : String) : String :=
  ⟨(((s.data.dropWhile isPySpace).reverse.dropWhile isPySpace).reverse).map pyLowerChar⟩

/-- Every prompt in `_virustotal_scan` proceeds exactly when the
normalized response equals `"y"` (`if choice != 'y': return False`,
then `return True`). -/
def promptProceed (s : String) : Bool :=
  normalizeChoice s = "y"

/-- The three operator prompts `_virustotal_scan` can issue: after a
failed download (cli.py line 135), on a suspicious finding (line 171),
and on a reputation-service error (line 184). -/
inductive PromptKind where
  | noHash
  | suspicious
  | serviceError
deriving Repr, DecidableEq

/-- Oracle environment for one `_virustotal_scan` call: the resolver's
environment, the outcome of the reputation query (`Except.error` models
a raising `requests.get` or an unparseable body in `resp.json()`), and
the outcome of `input()` at each of the three prompts (also fallible). -/
structure ScanEnv where
  resolve : ResolveEnv
  vtQuery : Except String HttpResponse
  promptNoHash : Except String String
  promptSuspicious : Except String String
  promptError : Except String String

/-- The Interactive Override Gate as `_virustotal_scan` implements it,
per verdict.  `Allow` and the no-data case return `True` with no prompt
(cli.py lines 178-179, 192-193); `Block` returns `False` with no prompt
(lines 165-167); a warning or an indeterminate verdict prompts and
proceeds only on a normalized `"y"` (lines 169-176, 182-189).  The trace
component records which prompts were issued. -/
def gateRun (v : Verdict) (env : ScanEnv) : Except String Bool × List PromptKind :=
  match v with
  | Verdict.allow => (Except.ok true, [])
  | Verdict.block _ => (Except.ok false, [])
  | Verdict.allowWithWarning _ =>
      ((match env.promptSuspicious with
        | Except.error e => Except.error e
        | Except.ok c => Except.ok (promptProceed c)), [PromptKind.suspicious])
  | Verdict.indeterminate _ _ =>
      ((match env.promptError with
        | Except.error e => Except.error e
        | Except.ok c => Except.ok (promptProceed c)), [PromptKind.serviceError])

/-- The body of the `try` block of `_virustotal_scan` (cli.py lines
112-193): download and hash the artifact; a falsy hash leads to the
no-hash prompt; otherwise the reputation service is queried and the
result dictionary drives the verdict branches.  The second component
records the prompts issued. -/
def scanBody (name manager : String) (env : ScanEnv) :
    Except String Bool × List PromptKind :=
  match (download_package_and_get_hash name manager env.resolve).1 with
  | Except.error e => (Except.error e, [])
  | Except.ok fileHash =>
      if pyFalsy fileHash then
        ((match env.promptNoHash with
          | Except.error e => Except.error e
          | Except.ok c => Except.ok (promptProceed c)), [PromptKind.noHash])
      else
        match env.vtQuery with
        | Except.error e => (Except.error e, [])
        | Except.ok resp => gateRun (verdictOf (scan_file_hash_with_virustotal resp)) env

/-- `UnifiedCLI._virustotal_scan` (cli.py lines 107-196): the body runs
inside `try`, and the top-level `except Exception` handler at lines
194-196 turns any escaped exception into `return True`. -/
def virustotal_scan (name manager : String) (env : ScanEnv) : Bool :=
  match (scanBody name manager env).1 with
  | Except.ok b => b
  | Except.error _ => true

/-- A resolver environment whose pip branch succeeds at the first
invocation and yields one downloaded file; used by concrete scenarios. -/
def pipOkEnv : ResolveEnv :=
  { pip := { run1 := RunOutcome.ret 0, run2 := RunOutcome.ret 0,
             files := ["left_pad-1.0.tar.gz"],
             hashOf := fun _ => "d0c8f23a6a4f2f0f8a1f0f2d9b7c6e5a4d3c2b1a0f9e8d7c6b5a4f3e2d1c0b9a" },
    npm := { registry := "https://registry.npmjs.org/", meta := none,
             registryLatest := none, tarballDownload := fun _ => none,
             packResult := none } }

example :
    virustotal_scan "left-pad" "pip3"
      { resolve := pipOkEnv,
        vtQuery := Except.ok ⟨200, ⟨some ⟨some ⟨some 0, some 0, some 70, some 0⟩⟩, none, none⟩, "ok"⟩,
        promptNoHash := Except.ok "n", promptSuspicious := Except.ok "n",
        promptError := Except.ok "n" } = true := by decide

example :
    virustotal_scan "evil-pkg" "pip3"
      { resolve := pipOkEnv,
        vtQuery := Except.ok ⟨200, ⟨some ⟨some ⟨some 3, some 0, some 0, some 0⟩⟩, none, none⟩, "ok"⟩,
        promptNoHash := Except.ok "y", promptSuspicious := Except.ok "y",
        promptError := Except.ok "y" } = false := by decide

/-- A reputation response of shape Found, with the four counters all
present. -/
def foundDict (mal susp harm undet : Int) : ResultDict :=
  { data := some ⟨some ⟨some mal, some susp, some harm, some undet⟩⟩,
    error := none, message := none }

/-- C1: for every reputation response of shape Found with
`malicious > 0`, the verdict is `Block` — regardless of the suspicious,
harmless and undetected counts — and never `AllowWithWarning`: the
malicious check at cli.py line 165 strictly precedes the suspicious
check at line 169. -/
theorem c1_malicious_always_blocks (r : ResultDict) (d : VTData)
    (hd : r.data = some d) (hmal : 0 < (statsOf d).malicious.getD 0) :
    verdictOf r = Verdict.block ((statsOf d).malicious.getD 0) ∧
    ∀ s, verdictOf r ≠ Verdict.allowWithWarning s := by
  refine ⟨by simp [verdictOf, hd, hmal], fun s h => ?_⟩
  simp [verdictOf, hd, hmal] at h

/-- Tie-break instance of C1: `malicious = 1, suspicious = 5` resolves
to `Block`, never `AllowWithWarning`. -/
theorem c1_malicious_always_blocks_witness :
    verdictOf (foundDict 1 5 0 0) = Verdict.block 1 ∧
    ∀ s, verdictOf (foundDict 1 5 0 0) ≠ Verdict.allowWithWarning s :=
  c1_malicious_always_blocks (foundDict 1 5 0 0) _ rfl (by decide)

/-- C2: for every reputation response of shape Found with
`malicious == 0` and `suspicious > 0`, the verdict is
`AllowWithWarning` carrying the suspicious count as its reason
(cli.py lines 169-176). -/
theorem c2_suspicious_warns (r : ResultDict) (d : VTData)
    (hd : r.data = some d) (hmal : (statsOf d).malicious.getD 0 = 0)
    (hsusp : 0 < (statsOf d).suspicious.getD 0) :
    verdictOf r = Verdict.allowWithWarning ((statsOf d).suspicious.getD 0) := by
  simp [verdictOf, hd, hmal, hsusp]

/-- Instance of C2: `malicious = 0, suspicious = 2` yields a warning
with reason 2. -/
theorem c2_suspicious_warns_witness :
    verdictOf (foundDict 0 2 10 4) = Verdict.allowWithWarning 2 :=
  c2_suspicious_warns (foundDict 0 2 10 4) _ rfl (by decide) (by decide)

/-- C3: for every reputation response of shape Found with
`malicious == 0` and `suspicious == 0`, the verdict is `Allow`, no
operator prompt is issued, and the scan's decision is `proceed = true`
(cli.py lines 178-179). -/
theorem c3_clean_allows_without_prompt (name manager : String) (env : ScanEnv)
    (hsh : String) (resp : HttpResponse) (d : VTData)
    (hdl : (download_package_and_get_hash name manager env.resolve).1 = Except.ok (some hsh))
    (hne : hsh ≠ "")
    (hq : env.vtQuery = Except.ok resp)
    (h200 : resp.statusCode = 200)
    (hdata : resp.jsonBody.data = some d)
    (hmal : (statsOf d).malicious.getD 0 = 0)
    (hsusp : (statsOf d).suspicious.getD 0 = 0) :
    verdictOf (scan_file_hash_with_virustotal resp) = Verdict.allow ∧
    scanBody name manager env = (Except.ok true, []) ∧
    virustotal_scan name manager env = true := by
  have hv : verdictOf (scan_file_hash_with_virustotal resp) = Verdict.allow := by
    simp [scan_file_hash_with_virustotal, h200, verdictOf, hdata, hmal, hsusp]
  have hb : scanBody name manager env = (Except.ok true, []) := by
    simp [scanBody, hdl, pyFalsy, hne, hq, hv, gateRun]
  exact ⟨hv, hb, by simp [virustotal_scan, hb]⟩

/-- End-to-end scenario A of the spec as an instance of C3: `left-pad`
with `malicious=0, suspicious=0, harmless=70` gives decision `true` with
no prompt. -/
theorem c3_clean_allows_without_prompt_witness :
    verdictOf (scan_file_hash_with_virustotal ⟨200, foundDict 0 0 70 0, "ok"⟩) = Verdict.allow ∧
    scanBody "left-pad" "pip3"
      { resolve := pipOkEnv,
        vtQuery := Except.ok ⟨200, foundDict 0 0 70 0, "ok"⟩,
        promptNoHash := Except.ok "n", promptSuspicious := Except.ok "n",
        promptError := Except.ok "n" } = (Except.ok true, []) ∧
    virustotal_scan "left-pad" "pip3"
      { resolve := pipOkEnv,
        vtQuery := Except.ok ⟨200, foundDict 0 0 70 0, "ok"⟩,
        promptNoHash := Except.ok "n", promptSuspicious := Except.ok "n",
        promptError := Except.ok "n" } = true :=
  c3_clean_allows_without_prompt "left-pad" "pip3" _
    "d0c8f23a6a4f2f0f8a1f0f2d9b7c6e5a4d3c2b1a0f9e8d7c6b5a4f3e2d1c0b9a"
    ⟨200, foundDict 0 0 70 0, "ok"⟩ _ rfl (by decide) rfl rfl rfl (by decide) (by decide)

/-- C4: every non-200 HTTP response from the reputation service, with
any valid HTTP status code (the Python HTTP client only ever yields
status codes in 100..999), is mapped by `scan_file_hash_with_virustotal`
to the error dictionary carrying that code and the response text, and
the resulting verdict is `Indeterminate` with that code and message —
never `Allow` and never `Block`. -/
theorem c4_service_error_is_indeterminate (resp : HttpResponse)
    (hval : 100 ≤ resp.statusCode) (hne : resp.statusCode ≠ 200) :
    scan_file_hash_with_virustotal resp =
      { data := none, error := some resp.statusCode, message := some resp.text } ∧
    verdictOf (scan_file_hash_with_virustotal resp) =
      Verdict.indeterminate resp.statusCode (some resp.text) ∧
    verdictOf (scan_file_hash_with_virustotal resp) ≠ Verdict.allow ∧
    ∀ m, verdictOf (scan_file_hash_with_virustotal resp) ≠ Verdict.block m := by
  have h0 : resp.statusCode ≠ 0 := by omega
  have hs : scan_file_hash_with_virustotal resp =
      { data := none, error := some resp.statusCode, message := some resp.text } := by
    simp [scan_file_hash_with_virustotal, hne]
  refine ⟨hs, by simp [hs, verdictOf, h0], by simp [hs, verdictOf, h0], fun m h => ?_⟩
  simp [hs, verdictOf, h0] at h

/-- Instance of C4: a 404 from the service yields the error dictionary
and an indeterminate verdict. -/
theorem c4_service_error_is_indeterminate_witness :
    scan_file_hash_with_virustotal ⟨404, ⟨none, none, none⟩, "NotFoundError"⟩ =
      { data := none, error := some 404, message := some "NotFoundError" } ∧
    verdictOf (scan_file_hash_with_virustotal ⟨404, ⟨none, none, none⟩, "NotFoundError"⟩) =
      Verdict.indeterminate 404 (some "NotFoundError") ∧
    verdictOf (scan_file_hash_with_virustotal ⟨404, ⟨none, none, none⟩, "NotFoundError"⟩) ≠
      Verdict.allow ∧
    ∀ m, verdictOf (scan_file_hash_with_virustotal ⟨404, ⟨none, none, none⟩, "NotFoundError"⟩) ≠
      Verdict.block m :=
  c4_service_error_is_indeterminate ⟨404, ⟨none, none, none⟩, "NotFoundError"⟩
    (by decide) (by decide)

/-- A scan environment in which the reputation service reports
`malicious = 3` for a successfully hashed artifact, while an operator
stands ready to answer `"y"` at every prompt. -/
def blockWithWillingOperatorEnv : ScanEnv :=
  { resolve := pipOkEnv,
    vtQuery := Except.ok ⟨200, foundDict 3 0 0 0, "ok"⟩,
    promptNoHash := Except.ok "y", promptSuspicious := Except.ok "y",
    promptError := Except.ok "y" }

/-- C5 fails on the code: with `malicious = 3` the verdict is `Block`
and an operator is standing by to answer `"y"` at every prompt, yet the
scan issues no prompt at all and returns `false` — the operator is never
given the chance to force-proceed (cli.py lines 165-167 return
immediately). -/
theorem c5_counterexample :
    verdictOf (scan_file_hash_with_virustotal ⟨200, foundDict 3 0 0 0, "ok"⟩) =
      Verdict.block 3 ∧
    scanBody "evil-pkg" "pip3" blockWithWillingOperatorEnv = (Except.ok false, []) ∧
    virustotal_scan "evil-pkg" "pip3" blockWithWillingOperatorEnv = false := by
  decide

/-- C5 amended: for every `Block` verdict (`malicious > 0`) the scan
issues no operator prompt and the decision is unconditionally
`proceed = false`; the operator cannot force-proceed. -/
theorem c5_amended_block_never_prompts (name manager : String) (env : ScanEnv)
    (hsh : String) (resp : HttpResponse) (d : VTData)
    (hdl : (download_package_and_get_hash name manager env.resolve).1 = Except.ok (some hsh))
    (hne : hsh ≠ "")
    (hq : env.vtQuery = Except.ok resp)
    (h200 : resp.statusCode = 200)
    (hdata : resp.jsonBody.data = some d)
    (hmal : 0 < (statsOf d).malicious.getD 0) :
    scanBody name manager env = (Except.ok false, []) ∧
    virustotal_scan name manager env = false := by
  have hv : verdictOf (scan_file_hash_with_virustotal resp) =
      Verdict.block ((statsOf d).malicious.getD 0) := by
    simp [scan_file_hash_with_virustotal, h200, verdictOf, hdata, hmal]
  have hb : scanBody name manager env = (Except.ok false, []) := by
    simp [scanBody, hdl, pyFalsy, hne, hq, hv, gateRun]
  exact ⟨hb, by simp [virustotal_scan, hb]⟩

/-- End-to-end scenario B as an instance of the amended C5: `evil-pkg`
with `malicious = 3` yields decision `false` with no prompt. -/
theorem c5_amended_block_never_prompts_witness :
    scanBody "evil-pkg" "pip3" blockWithWillingOperatorEnv = (Except.ok false, []) ∧
    virustotal_scan "evil-pkg" "pip3" blockWithWillingOperatorEnv = false :=
  c5_amended_block_never_prompts "evil-pkg" "pip3" blockWithWillingOperatorEnv
    "d0c8f23a6a4f2f0f8a1f0f2d9b7c6e5a4d3c2b1a0f9e8d7c6b5a4f3e2d1c0b9a"
    ⟨200, foundDict 3 0 0 0, "ok"⟩ _ rfl (by decide) rfl rfl rfl (by decide)

/-- When fallback step 1 produced a truthy direct URL, the npm branch
emits only download and pack events, never a registry-latest query. -/
theorem npmResolve_no_registry_query_of_meta_url (name : String) (e : NpmEnv)
    (h : optStrTruthy (metaTarball e.meta) = true) :
    Event.queryRegistryLatest ∉ (npmResolve name e).2 := by
  have hev : npmStep2Events e = [] := by simp [npmStep2Events, h]
  unfold npmResolve
  cases hstep : npmStep3 name e (npmStep2Url e) with
  | error msg => simp [hev]
  | ok u3 =>
      simp only [hev, List.nil_append]
      unfold npmStep45
      by_cases ht : optStrTruthy u3 = true
      · simp only [ht, if_true]
        cases e.tarballDownload (u3.getD "") <;> simp
      · simp [ht]

/-- C6: for every npm resolution whose `npm view` metadata embeds a
truthy `dist.tarball` URL, the registry's latest-version endpoint is
never queried: step 1 short-circuits the registry query. -/
theorem c6_direct_url_skips_registry_query (name : String) (env : ResolveEnv)
    (h : optStrTruthy (metaTarball env.npm.meta) = true) :
    Event.queryRegistryLatest ∉ (download_package_and_get_hash name "npm" env).2 := by
  unfold download_package_and_get_hash resolveBody
  rw [if_neg (by decide), if_pos rfl]
  intro hmem
  simp only [List.mem_cons, List.mem_append, List.mem_singleton] at hmem
  rcases hmem with (h1 | h2) | h3 | h4
  · cases h1
  · exact npmResolve_no_registry_query_of_meta_url name env.npm h h2
  · cases h3
  · cases h4

/-- A resolver environment whose npm metadata embeds a direct
`dist.tarball` URL. -/
def npmMetaUrlEnv : ResolveEnv :=
  { pip := { run1 := RunOutcome.ret 1, run2 := RunOutcome.ret 1,
             files := [], hashOf := fun _ => "" },
    npm := { registry := "https://registry.npmjs.org/",
             meta := some ⟨some ⟨some "https://registry.npmjs.org/left-pad/-/left-pad-1.3.0.tgz"⟩,
                           some "1.3.0"⟩,
             registryLatest := some "https://registry.npmjs.org/should-not-be-used.tgz",
             tarballDownload := fun _ =>
               some "9b7c6e5a4d3c2b1a0f9e8d7c6b5a4f3e2d1c0b9ad0c8f23a6a4f2f0f8a1f0f2d",
             packResult := none } }

/-- Instance of C6: with a direct URL in the metadata, resolving
`left-pad` via npm performs no registry-latest query. -/
theorem c6_direct_url_skips_registry_query_witness :
    Event.queryRegistryLatest ∉
      (download_package_and_get_hash "left-pad" "npm" npmMetaUrlEnv).2 :=
  c6_direct_url_skips_registry_query "left-pad" npmMetaUrlEnv (by decide)

/-- The pip branch reduction of `resolveBody`. -/
theorem resolveBody_pip (name : String) (env : ResolveEnv) :
    resolveBody name "pip3" env = download_pip_artifact env.pip := by
  unfold resolveBody
  rw [if_pos rfl]

/-- The npm branch reduction of `resolveBody`. -/
theorem resolveBody_npm (name : String) (env : ResolveEnv) :
    resolveBody name "npm" env = npmResolve name env.npm := by
  unfold resolveBody
  rw [if_neg (by decide), if_pos rfl]

/-- The pip branch emits only subprocess events. -/
theorem download_pip_artifact_no_temp_events (e : PipEnv) :
    Event.mkdtemp ∉ (download_pip_artifact e).2 ∧
    Event.rmtree ∉ (download_pip_artifact e).2 := by
  unfold download_pip_artifact
  cases e.run1 with
  | raised m => simp
  | ret rc1 =>
      cases e.run2 with
      | raised m => by_cases h1 : rc1 = 0 <;> simp [h1]
      | ret rc2 =>
          by_cases h1 : rc1 = 0 <;> by_cases h2 : rc2 = 0 <;> simp [h1, h2]

/-- Steps 4-5 of the npm branch emit only download and pack events. -/
theorem npmStep45_no_temp_events (e : NpmEnv) (u3 : Option String) :
    Event.mkdtemp ∉ (npmStep45 e u3).2 ∧
    Event.rmtree ∉ (npmStep45 e u3).2 := by
  unfold npmStep45
  by_cases ht : optStrTruthy u3 = true
  · simp only [ht, if_true]
    cases e.tarballDownload (u3.getD "") <;> simp
  · simp [ht]

/-- Step 2 of the npm branch emits at most a registry query. -/
theorem npmStep2Events_no_temp_events (e : NpmEnv) :
    Event.mkdtemp ∉ npmStep2Events e ∧
    Event.rmtree ∉ npmStep2Events e := by
  unfold npmStep2Events
  by_cases h : optStrTruthy (metaTarball e.meta) = true <;> simp [h]

/-- The npm branch emits no scratch-directory events of its own. -/
theorem npmResolve_no_temp_events (name : String) (e : NpmEnv) :
    Event.mkdtemp ∉ (npmResolve name e).2 ∧
    Event.rmtree ∉ (npmResolve name e).2 := by
  unfold npmResolve
  cases npmStep3 name e (npmStep2Url e) with
  | error msg => exact npmStep2Events_no_temp_events e
  | ok u3 =>
      constructor
      · intro hm
        rcases List.mem_append.mp hm with hx | hx
        · exact (npmStep2Events_no_temp_events e).1 hx
        · exact (npmStep45_no_temp_events e u3).1 hx
      · intro hm
        rcases List.mem_append.mp hm with hx | hx
        · exact (npmStep2Events_no_temp_events e).2 hx
        · exact (npmStep45_no_temp_events e u3).2 hx

/-- The `try`-block body of the resolver never emits scratch-directory
events itself: those belong to `tempfile.mkdtemp` and the `finally`
block. -/
theorem resolveBody_no_temp_events (name manager : String) (env : ResolveEnv) :
    Event.mkdtemp ∉ (resolveBody name manager env).2 ∧
    Event.rmtree ∉ (resolveBody name manager env).2 := by
  unfold resolveBody
  by_cases h1 : manager = "pip3"
  · simp only [h1, if_pos]
    exact download_pip_artifact_no_temp_events env.pip
  · rw [if_neg h1]
    by_cases h2 : manager = "npm"
    · rw [if_pos h2]
      exact npmResolve_no_temp_events name env.npm
    · rw [if_neg h2]
      exact ⟨by simp, by simp⟩

/-- C7: for every resolver call — any package name, any manager value,
any oracle environment, the raising paths included — exactly one scratch
directory is created, exactly one recursive removal happens, and the
removal is the last effect before the call returns. -/
theorem c7_one_scratch_dir_always_removed (name manager : String) (env : ResolveEnv) :
    (download_package_and_get_hash name manager env).2.count Event.mkdtemp = 1 ∧
    (download_package_and_get_hash name manager env).2.count Event.rmtree = 1 ∧
    (download_package_and_get_hash name manager env).2.getLast? = some Event.rmtree := by
  have hb := resolveBody_no_temp_events name manager env
  unfold download_package_and_get_hash
  refine ⟨?_, ?_, ?_⟩
  · simp [List.count_append, List.count_cons, List.count_singleton,
      List.count_eq_zero_of_not_mem hb.1]
  · simp [List.count_append, List.count_cons, List.count_singleton,
      List.count_eq_zero_of_not_mem hb.2]
  · exact List.getLast?_concat _

/-- A resolver environment in which the first pip invocation itself
raises (`pip3` binary missing) — `subprocess.run` raises
`FileNotFoundError` before any return code exists. -/
def pipToolMissingEnv : ResolveEnv :=
  { pip := { run1 := RunOutcome.raised "FileNotFoundError", run2 := RunOutcome.ret 0,
             files := [], hashOf := fun _ => "" },
    npm := { registry := "https://registry.npmjs.org/", meta := none,
             registryLatest := none, tarballDownload := fun _ => none,
             packResult := none } }

/-- C8 fails on the code: with the pip tool missing, the first
`subprocess.run` in `_download_pip_artifact` raises, that function has
no handler, and `download_package_and_get_hash` only has a `finally`
block — so the exception propagates past the resolver boundary instead
of being returned as a typed no-artifact failure. -/
theorem c8_counterexample :
    (download_package_and_get_hash "requests" "pip3" pipToolMissingEnv).1 =
      Except.error "FileNotFoundError" := by decide

/-- C8 amended: when the tool invocations themselves return (even with
non-zero exit, and even when no file is produced), pip resolution
returns a typed `Optional` result and raises nothing; but when a tool
invocation itself raises (tool missing), the exception propagates past
the resolver boundary, and it is the scan's top-level handler that
recovers it — by proceeding. -/
theorem c8_amended_tool_raise_escapes_resolver :
    (∀ (name : String) (env : ResolveEnv) (rc1 rc2 : Int),
      env.pip.run1 = RunOutcome.ret rc1 → env.pip.run2 = RunOutcome.ret rc2 →
      ∃ o, (download_package_and_get_hash name "pip3" env).1 = Except.ok o) ∧
    (∀ (name : String) (env : ResolveEnv) (m : String),
      env.pip.run1 = RunOutcome.raised m →
      (download_package_and_get_hash name "pip3" env).1 = Except.error m) ∧
    (∀ (name manager : String) (senv : ScanEnv) (m : String),
      (download_package_and_get_hash name manager senv.resolve).1 = Except.error m →
      virustotal_scan name manager senv = true) := by
  refine ⟨?_, ?_, ?_⟩
  · intro name env rc1 rc2 h1 h2
    have hd : (download_package_and_get_hash name "pip3" env).1 =
        (download_pip_artifact env.pip).1 := by
      unfold download_package_and_get_hash
      rw [resolveBody_pip]
    rw [hd]
    unfold download_pip_artifact
    rw [h1, h2]
    by_cases hrc : rc1 ≠ 0 <;> by_cases hrc2 : rc2 ≠ 0 <;> simp [hrc, hrc2]
  · intro name env m h1
    have hd : (download_package_and_get_hash name "pip3" env).1 =
        (download_pip_artifact env.pip).1 := by
      unfold download_package_and_get_hash
      rw [resolveBody_pip]
    rw [hd]
    unfold download_pip_artifact
    rw [h1]
  · intro name manager senv m h
    have hb : scanBody name manager senv = (Except.error m, []) := by
      unfold scanBody
      rw [h]
    unfold virustotal_scan
    rw [hb]

/-- Instance of the amended C8: the missing-tool environment makes the
resolver raise `FileNotFoundError` past its boundary. -/
theorem c8_amended_tool_raise_escapes_resolver_witness :
    (download_package_and_get_hash "requests" "pip3" pipToolMissingEnv).1 =
      Except.error "FileNotFoundError" :=
  c8_amended_tool_raise_escapes_resolver.2.1 "requests" pipToolMissingEnv
    "FileNotFoundError" rfl

/-- A scan environment with a suspicious finding where the operator
answers the prompt with an empty response. -/
def suspiciousEmptyResponseEnv : ScanEnv :=
  { resolve := pipOkEnv,
    vtQuery := Except.ok ⟨200, foundDict 0 2 10 0, "ok"⟩,
    promptNoHash := Except.ok "", promptSuspicious := Except.ok "",
    promptError := Except.ok "" }

/-- C9 fails on the code: at the suspicious-finding prompt an empty
operator response — one that does not clearly decline — yields decision
`false`, not `true`: the prompts are default-closed (`if choice != 'y':
return False`). -/
theorem c9_counterexample :
    verdictOf (scan_file_hash_with_virustotal ⟨200, foundDict 0 2 10 0, "ok"⟩) =
      Verdict.allowWithWarning 2 ∧
    virustotal_scan "left-pad" "pip3" suspiciousEmptyResponseEnv = false := by decide

/-- C9 amended: at the operator prompts for the ambiguous cases —
no artifact obtainable, suspicious finding, reputation-service error —
the posture is restrictive, not permissive: the decision is `true`
exactly when the operator's response, stripped and lowercased, equals
`"y"`; every other response, the empty and the unrecognized ones
included, yields `false`. -/
theorem c9_amended_only_explicit_yes_proceeds :
    (∀ (name manager : String) (env : ScanEnv) (c : String),
      (download_package_and_get_hash name manager env.resolve).1 = Except.ok none →
      env.promptNoHash = Except.ok c →
      virustotal_scan name manager env = promptProceed c) ∧
    (∀ (name manager : String) (env : ScanEnv) (hsh c : String)
      (resp : HttpResponse) (s : Int),
      (download_package_and_get_hash name manager env.resolve).1 = Except.ok (some hsh) →
      hsh ≠ "" →
      env.vtQuery = Except.ok resp →
      verdictOf (scan_file_hash_with_virustotal resp) = Verdict.allowWithWarning s →
      env.promptSuspicious = Except.ok c →
      virustotal_scan name manager env = promptProceed c) ∧
    (∀ (name manager : String) (env : ScanEnv) (hsh c : String)
      (resp : HttpResponse) (code : Nat) (msg : Option String),
      (download_package_and_get_hash name manager env.resolve).1 = Except.ok (some hsh) →
      hsh ≠ "" →
      env.vtQuery = Except.ok resp →
      verdictOf (scan_file_hash_with_virustotal resp) = Verdict.indeterminate code msg →
      env.promptError = Except.ok c →
      virustotal_scan name manager env = promptProceed c) := by
  refine ⟨?_, ?_, ?_⟩
  · intro name manager env c hdl hc
    simp [virustotal_scan, scanBody, hdl, pyFalsy, hc]
  · intro name manager env hsh c resp s hdl hne hq hv hc
    simp [virustotal_scan, scanBody, hdl, pyFalsy, hne, hq, hv, gateRun, hc]
  · intro name manager env hsh c resp code msg hdl hne hq hv hc
    simp [virustotal_scan, scanBody, hdl, pyFalsy, hne, hq, hv, gateRun, hc]

/-- A resolver environment whose pip download succeeds with exit code 0
but leaves no file, so no hash is produced. -/
def pipNoFilesEnv : ResolveEnv :=
  { pip := { run1 := RunOutcome.ret 0, run2 := RunOutcome.ret 0,
             files := [], hashOf := fun _ => "" },
    npm := { registry := "https://registry.npmjs.org/", meta := none,
             registryLatest := none, tarballDownload := fun _ => none,
             packResult := none } }

/-- A scan environment reaching the no-hash prompt with an empty
operator response. -/
def noHashEmptyResponseEnv : ScanEnv :=
  { resolve := pipNoFilesEnv,
    vtQuery := Except.error "unused",
    promptNoHash := Except.ok "", promptSuspicious := Except.ok "n",
    promptError := Except.ok "n" }

/-- Instance of the amended C9: an empty response at the no-hash prompt
yields decision `false`. -/
theorem c9_amended_only_explicit_yes_proceeds_witness :
    virustotal_scan "foo" "pip3" noHashEmptyResponseEnv = false := by
  have h := c9_amended_only_explicit_yes_proceeds.1 "foo" "pip3"
    noHashEmptyResponseEnv "" rfl rfl
  exact h.trans (by decide)

/-- C10: whenever any exception escapes any stage of the scan body —
artifact download, hashing, reputation query, result parsing or a
prompt itself — the top-level handler of `_virustotal_scan` catches it
and the decision is `proceed = true`: the pipeline fails open. -/
theorem c10_unexpected_exception_fails_open (name manager : String)
    (env : ScanEnv) (e : String)
    (h : (scanBody name manager env).1 = Except.error e) :
    virustotal_scan name manager env = true := by
  unfold virustotal_scan
  rw [h]

/-- A scan environment whose reputation query raises. -/
def queryRaisesEnv : ScanEnv :=
  { resolve := pipOkEnv,
    vtQuery := Except.error "ConnectionError",
    promptNoHash := Except.ok "n", promptSuspicious := Except.ok "n",
    promptError := Except.ok "n" }

/-- Instance of C10: a raising reputation query makes the scan proceed. -/
theorem c10_unexpected_exception_fails_open_witness :
    virustotal_scan "requests" "pip3" queryRaisesEnv = true :=
  c10_unexpected_exception_fails_open "requests" "pip3" queryRaisesEnv
    "ConnectionError" (by decide)
